/-
Verification of the syncro-mcp server core: the navigation state machine,
the domain-handler registry/cache, the credential resolver and backing-client
session cache, and the credential-injection rules of the HTTP transport adapter.

The definitions below are a shallow embedding of the TypeScript sources:
  * `src/utils/types.ts`  — domain names, handler interface
  * `src/utils/client.ts` — credential resolution and the client session cache
  * `src/domains/index.ts`— lazy handler registry
  * the per-domain modules — tool lists and the tickets call dispatch
  * `src/index.ts`        — navigation state machine, tool dispatch, HTTP adapter
Mutable module state (`currentDomain`, `_client`, `_credentials`, the domain
cache, `process.env`) is threaded explicitly; `async` failure (`throw`) is
`Except.error`; JavaScript string falsiness is modelled by `jsTruthy`.
The remote Syncro API and the dynamic `import` are external collaborators and
enter as explicit oracle parameters.  Tool `inputSchema` payloads are inert
data never inspected by the core and are elided from the `Tool` record.
-/
import Mathlib

namespace SyncroMcp

/-! ### Data model (src/utils/types.ts) -/

/-- The closed set of domain identifiers. -/
inductive DomainName where
  | customers
  | tickets
  | assets
  | contacts
  | invoices
deriving DecidableEq, Repr

/-- The string form of a domain identifier (TS `DomainName` is a string union). -/
def DomainName.toString : DomainName → String
  | .customers => "customers"
  | .tickets => "tickets"
  | .assets => "assets"
  | .contacts => "contacts"
  | .invoices => "invoices"

/-- `isDomainName` from src/utils/types.ts. -/
def isDomainName (value : String) : Bool :=
  ["customers", "tickets", "assets", "contacts", "invoices"].contains value

/-- Narrowing a string to the enum, mirroring the TS type-narrowing that
`isDomainName` performs. -/
def parseDomainName (value : String) : Option DomainName :=
  if value = "customers" then some .customers
  else if value = "tickets" then some .tickets
  else if value = "assets" then some .assets
  else if value = "contacts" then some .contacts
  else if value = "invoices" then some .invoices
  else none

/-! ### Credential resolver and client session cache (src/utils/client.ts) -/

/-- The process environment variables the server reads for credentials. -/
structure Env where
  SYNCRO_API_KEY : Option String
  SYNCRO_SUBDOMAIN : Option String
deriving DecidableEq, Repr

/-- JavaScript truthiness for an optional string: `undefined` and `""` are
falsy, anything else passes through. -/
def jsTruthy : Option String → Option String
  | none => none
  | some s => if s = "" then none else some s

structure SyncroCredentials where
  apiKey : String
  subdomain : Option String
deriving DecidableEq, Repr

/-- `getCredentials` from src/utils/client.ts: read `SYNCRO_API_KEY`
(falsy check) and `SYNCRO_SUBDOMAIN` from the environment. -/
def getCredentials (env : Env) : Option SyncroCredentials :=
  match jsTruthy env.SYNCRO_API_KEY with
  | none => none
  | some apiKey => some { apiKey := apiKey, subdomain := env.SYNCRO_SUBDOMAIN }

/-- A backing client handle.  `id` instruments object identity: each
`new SyncroClient(...)` in the source yields a fresh instance, modelled by a
fresh `id` drawn from the counter in the cache state. -/
structure SyncroClient where
  id : Nat
  apiKey : String
  subdomain : Option String
deriving DecidableEq, Repr

/-- The module-level mutable state of src/utils/client.ts: `_client`,
`_credentials`, plus the fresh-instance counter instrumenting `new`. -/
structure ClientState where
  cachedClient : Option SyncroClient
  cachedCredentials : Option SyncroCredentials
  nextId : Nat
deriving DecidableEq, Repr

/-- `getClient` from src/utils/client.ts: resolve credentials (throwing when
absent), invalidate the cached client when the resolved tuple differs from the
cached tuple in either field, then return the cached client or construct,
cache and return a fresh one. -/
def getClient (env : Env) (s : ClientState) :
    Except String (SyncroClient × ClientState) :=
  match getCredentials env with
  | none =>
    .error "No API credentials provided. Please configure SYNCRO_API_KEY environment variable."
  | some creds =>
    let s1 :=
      match s.cachedClient, s.cachedCredentials with
      | some _, some cached =>
        if creds.apiKey ≠ cached.apiKey ∨ creds.subdomain ≠ cached.subdomain then
          { s with cachedClient := none }
        else s
      | _, _ => s
    match s1.cachedClient with
    | some c => .ok (c, s1)
    | none =>
      let c : SyncroClient :=
        { id := s1.nextId, apiKey := creds.apiKey, subdomain := creds.subdomain }
      .ok (c, { cachedClient := some c, cachedCredentials := some creds,
                nextId := s1.nextId + 1 })

/-- `clearClient` from src/utils/client.ts. -/
def clearClient (s : ClientState) : ClientState :=
  { s with cachedClient := none, cachedCredentials := none }

/-! ### Tools (src/index.ts and the per-domain modules) -/

/-- A tool descriptor: name and description (the `inputSchema` is inert data
never read by the core and is elided). -/
structure Tool where
  name : String
  description : String
deriving DecidableEq, Repr

def navigateTool : Tool :=
  { name := "syncro_navigate",
    description := "Navigate to a Syncro domain to access its tools. Available domains: customers (manage customer accounts), tickets (manage support tickets), assets (manage configuration items/devices), contacts (manage customer contacts), invoices (view and manage billing)." }

def backTool : Tool :=
  { name := "syncro_back",
    description := "Navigate back to the main menu to select a different domain" }

def statusTool : Tool :=
  { name := "syncro_status",
    description := "Show current navigation state and available domains. Also verifies API credentials are configured." }

/-- `getTools()` of src/domains/customers.ts. -/
def customersTools : List Tool :=
  [ { name := "syncro_customers_list",
      description := "List customers in Syncro. Can filter by query, email, phone, or include disabled customers." },
    { name := "syncro_customers_get",
      description := "Get details for a specific customer by their ID" },
    { name := "syncro_customers_create",
      description := "Create a new customer in Syncro" },
    { name := "syncro_customers_search",
      description := "Search for customers using a query string. Matches against business name, contact name, email, and other fields." } ]

/-- `getTools()` of src/domains/tickets.ts. -/
def ticketsTools : List Tool :=
  [ { name := "syncro_tickets_list",
      description := "List tickets in Syncro. Can filter by customer, contact, status, user, problem type, or resolved state." },
    { name := "syncro_tickets_get",
      description := "Get details for a specific ticket by its ID, including comments" },
    { name := "syncro_tickets_create",
      description := "Create a new ticket in Syncro" },
    { name := "syncro_tickets_update",
      description := "Update an existing ticket in Syncro" },
    { name := "syncro_tickets_add_comment",
      description := "Add a comment to an existing ticket" } ]

/-- `getTools()` of src/domains/assets.ts. -/
def assetsTools : List Tool :=
  [ { name := "syncro_assets_list",
      description := "List assets/configuration items in Syncro. Can filter by customer, asset type, or serial number." },
    { name := "syncro_assets_get",
      description := "Get details for a specific asset by its ID" },
    { name := "syncro_assets_search",
      description := "Search for assets using a query string or serial number. Useful for finding devices by name, serial, or other attributes." } ]

/-- `getTools()` of src/domains/contacts.ts. -/
def contactsTools : List Tool :=
  [ { name := "syncro_contacts_list",
      description := "List contacts in Syncro. Can filter by customer ID or search query." },
    { name := "syncro_contacts_get",
      description := "Get details for a specific contact by their ID" },
    { name := "syncro_contacts_create",
      description := "Create a new contact in Syncro" } ]

/-- `getTools()` of src/domains/invoices.ts. -/
def invoicesTools : List Tool :=
  [ { name := "syncro_invoices_list",
      description := "List invoices in Syncro. Can filter by customer, status, or date range." },
    { name := "syncro_invoices_get",
      description := "Get details for a specific invoice by its ID, including line items" },
    { name := "syncro_invoices_create",
      description := "Create a new invoice in Syncro" },
    { name := "syncro_invoices_email",
      description := "Email an invoice to the customer" } ]

/-- The fixed tool list returned by the `getTools()` of each domain module. -/
def domainToolsOf : DomainName → List Tool
  | .customers => customersTools
  | .tickets => ticketsTools
  | .assets => assetsTools
  | .contacts => contactsTools
  | .invoices => invoicesTools

/-! ### Domain handlers (src/utils/types.ts, src/domains/tickets.ts) -/

/-- A loosely-typed JSON-ish primitive, for the tool argument bag. -/
inductive Prim where
  | str (s : String)
  | num (n : Int)
  | bool (b : Bool)
deriving DecidableEq, Repr

/-- The `Record<string, unknown>` argument bag of a tool call. -/
def Args := List (String × Prim)

/-- The result of a tool call: text content entries plus the error flag
(absent `isError` in the source is `false`). -/
structure CallToolResult where
  content : List String
  isError : Bool := false
deriving DecidableEq, Repr

/-- The `DomainHandler` interface of src/utils/types.ts.  `handleCall` threads
the environment and client-cache state (it may call `getClient`), and returns
`Except.error` where the source rejects/throws. -/
structure DomainHandler where
  getTools : List Tool
  handleCall : String → Args → Env → ClientState →
    (Except String CallToolResult) × ClientState

/-- The remote ticket operations of the Syncro client (external collaborator):
each takes the credential-bound client and the forwarded argument bag and
returns the rendered response text or throws. -/
structure TicketsApi where
  list : SyncroClient → Args → Except String String
  get : SyncroClient → Args → Except String String
  create : SyncroClient → Args → Except String String
  update : SyncroClient → Args → Except String String
  addComment : SyncroClient → Args → Except String String

/-- `handleCall` of src/domains/tickets.ts: obtain the client via `getClient`
(a throw propagates), switch on the tool name forwarding the arguments to the
corresponding remote operation, and fall back to an `Unknown ticket tool`
error result. -/
def ticketsHandleCall (api : TicketsApi) (toolName : String) (args : Args)
    (env : Env) (cs : ClientState) :
    (Except String CallToolResult) × ClientState :=
  match getClient env cs with
  | .error e => (.error e, cs)
  | .ok (client, cs1) =>
    let deliver : Except String String → Except String CallToolResult :=
      fun r =>
        match r with
        | .error e => .error e
        | .ok text => .ok { content := [text] }
    if toolName = "syncro_tickets_list" then (deliver (api.list client args), cs1)
    else if toolName = "syncro_tickets_get" then (deliver (api.get client args), cs1)
    else if toolName = "syncro_tickets_create" then (deliver (api.create client args), cs1)
    else if toolName = "syncro_tickets_update" then (deliver (api.update client args), cs1)
    else if toolName = "syncro_tickets_add_comment" then
      (deliver (api.addComment client args), cs1)
    else
      (.ok { content := ["Unknown ticket tool: " ++ toolName], isError := true }, cs1)

/-- The tickets handler value exported by src/domains/tickets.ts. -/
def ticketsHandler (api : TicketsApi) : DomainHandler :=
  { getTools := ticketsTools, handleCall := ticketsHandleCall api }

/-! ### Domain handler registry (src/domains/index.ts) -/

/-- `getAvailableDomains` from src/domains/index.ts — the canonical order. -/
def getAvailableDomains : List DomainName :=
  [.customers, .tickets, .assets, .contacts, .invoices]

/-- `getAvailableDomains().join(", ")` as used in prompts and errors. -/
def availableDomainsJoined : String :=
  String.intercalate ", " (getAvailableDomains.map DomainName.toString)

/-- The `domainCache` map of src/domains/index.ts. -/
def Cache := DomainName → Option DomainHandler

/-- `getDomainHandler` from src/domains/index.ts: return the cached handler if
present, otherwise perform the (fallible) dynamic import `imp`, cache the
result and return it. -/
def getDomainHandler (imp : DomainName → Except String DomainHandler)
    (cache : Cache) (domain : DomainName) :
    Except String (DomainHandler × Cache) :=
  match cache domain with
  | some cached => .ok (cached, cache)
  | none =>
    match imp domain with
    | .error e => .error e
    | .ok handler =>
      .ok (handler, fun d => if d = domain then some handler else cache d)

/-- The import oracle of the real program: every dynamic import succeeds and
yields the fixed `getTools` of the domain module together with its `handleCall`
(the latter abstracted as `call`, since only tickets is modelled concretely). -/
def importOf
    (call : DomainName → String → Args → Env → ClientState →
      (Except String CallToolResult) × ClientState) :
    DomainName → Except String DomainHandler :=
  fun d => .ok { getTools := domainToolsOf d, handleCall := call d }

/-! ### Navigation state machine and tool dispatch (src/index.ts) -/

/-- The mutable server state: `currentDomain`, the domain-handler cache and
the client-cache module state. -/
structure ServerState where
  currentDomain : Option DomainName
  domainCache : Cache
  clientState : ClientState

def errorResult (text : String) : CallToolResult :=
  { content := [text], isError := true }

def textResult (text : String) : CallToolResult :=
  { content := [text] }

/-- `getToolsForState` from src/index.ts: always `status`; at root prepend
`navigate`; in a domain prepend `back` and append the tools of the handler
(the lazy handler load may throw). -/
def getToolsForState (imp : DomainName → Except String DomainHandler)
    (st : ServerState) : Except String (List Tool × ServerState) :=
  match st.currentDomain with
  | none => .ok ([navigateTool, statusTool], st)
  | some d =>
    match getDomainHandler imp st.domainCache d with
    | .error e => .error e
    | .ok (handler, cache1) =>
      .ok ([backTool, statusTool] ++ handler.getTools,
           { st with domainCache := cache1 })

/-- JS template interpolation of a possibly-missing argument value. -/
def primDisplay : Option Prim → String
  | none => "undefined"
  | some (.str s) => s
  | some (.num n) => ToString.toString n
  | some (.bool b) => if b then "true" else "false"

def invalidDomainText (domain : String) : String :=
  "Invalid domain: " ++ domain ++ ". Available domains: " ++ availableDomainsJoined

def noCredentialsText : String :=
  "Error: No API credentials configured. Please set SYNCRO_API_KEY environment variable."

def navigateSuccessText (domain : DomainName) (tools : List Tool) : String :=
  "Navigated to " ++ domain.toString ++ " domain.\n\nAvailable tools:\n" ++
  String.intercalate "\n"
    (tools.map (fun t => "- " ++ t.name ++ ": " ++ t.description)) ++
  "\n\nUse syncro_back to return to the main menu."

def backText (previousDomain : Option DomainName) : String :=
  "Navigated back from " ++
  (match previousDomain with
   | some d => d.toString
   | none => "root") ++
  " to the main menu.\n\nAvailable domains: " ++ availableDomainsJoined ++
  "\n\nUse syncro_navigate to select a domain."

def statusText (env : Env) (currentDomain : Option DomainName) : String :=
  "Syncro MCP Server Status\n\nCurrent domain: " ++
  (match currentDomain with
   | some d => d.toString
   | none => "(none - at main menu)") ++
  "\nCredentials: " ++
  (match getCredentials env with
   | some creds =>
     "Configured" ++
     (match jsTruthy creds.subdomain with
      | some sub => " (subdomain: " ++ sub ++ ")"
      | none => "")
   | none => "NOT CONFIGURED - Please set SYNCRO_API_KEY environment variable") ++
  "\nAvailable domains: " ++ availableDomainsJoined ++
  "\nRate limit: 180 requests/minute"

def unknownToolText : Option DomainName → String → String
  | some d, name =>
    "Unknown tool: " ++ name ++ ". You are currently in the " ++ d.toString ++
    " domain. Use syncro_back to return to the main menu."
  | none, name =>
    "Unknown tool: " ++ name ++ ". Use syncro_navigate to select a domain first."

/-- The body of the CallTool request handler of src/index.ts (inside the
`try`).  A thrown error is `Except.error`; state mutations made before a throw
persist in the returned state. -/
def handleCallToolAux (imp : DomainName → Except String DomainHandler)
    (env : Env) (st : ServerState) (name : String) (args : Args) :
    (Except String CallToolResult) × ServerState :=
  if name = "syncro_navigate" then
    match (args.lookup "domain").bind (fun p =>
      match p with
      | .str s => parseDomainName s
      | _ => none) with
    | some d =>
      match getCredentials env with
      | none => (.ok (errorResult noCredentialsText), st)
      | some _ =>
        let st1 := { st with currentDomain := some d }
        match getDomainHandler imp st1.domainCache d with
        | .error e => (.error e, st1)
        | .ok (handler, cache1) =>
          (.ok (textResult (navigateSuccessText d handler.getTools)),
           { st1 with domainCache := cache1 })
    | none =>
      (.ok (errorResult (invalidDomainText (primDisplay (args.lookup "domain")))), st)
  else if name = "syncro_back" then
    (.ok (textResult (backText st.currentDomain)), { st with currentDomain := none })
  else if name = "syncro_status" then
    (.ok (textResult (statusText env st.currentDomain)), st)
  else
    match st.currentDomain with
    | some d =>
      match getDomainHandler imp st.domainCache d with
      | .error e => (.error e, st)
      | .ok (handler, cache1) =>
        let st1 := { st with domainCache := cache1 }
        if (handler.getTools.map Tool.name).contains name then
          let out := handler.handleCall name args env st1.clientState
          (out.1, { st1 with clientState := out.2 })
        else
          (.ok (errorResult (unknownToolText (some d) name)), st1)
    | none =>
      (.ok (errorResult (unknownToolText none name)), st)

/-- The CallTool request handler of src/index.ts: the `try` body with its
`catch` converting any thrown error into an error result carrying the message
of the error. -/
def handleCallTool (imp : DomainName → Except String DomainHandler)
    (env : Env) (st : ServerState) (name : String) (args : Args) :
    CallToolResult × ServerState :=
  match handleCallToolAux imp env st name args with
  | (.ok res, st1) => (res, st1)
  | (.error e, st1) => ({ content := ["Error: " ++ e], isError := true }, st1)

/-! ### HTTP transport adapter (src/index.ts) -/

/-- An inbound HTTP request: its path and the two gateway credential headers
(Node lower-cases header names; `getHeader` also takes the first entry of an
array-valued header — modelled as the single optional value). -/
structure HttpRequest where
  path : String
  apiKeyHeader : Option String
  subdomainHeader : Option String
deriving DecidableEq, Repr

/-- `applyGatewayCredentials` from src/index.ts: if the `x-syncro-api-key`
header is falsy, report failure without touching the environment; otherwise
write it to `SYNCRO_API_KEY` and, when the `x-syncro-subdomain` header is
truthy, write that to `SYNCRO_SUBDOMAIN`. -/
def applyGatewayCredentials (req : HttpRequest) (env : Env) : Bool × Env :=
  match jsTruthy req.apiKeyHeader with
  | none => (false, env)
  | some apiKey =>
    let env1 := { env with SYNCRO_API_KEY := some apiKey }
    let env2 :=
      match jsTruthy req.subdomainHeader with
      | some sub => { env1 with SYNCRO_SUBDOMAIN := some sub }
      | none => env1
    (true, env2)

/-- The response of the HTTP request handler: the health payload, the 401
missing-credentials payload, dispatch into the MCP transport, or the 404
catch-all with the known endpoints. -/
inductive HttpOutcome where
  | healthResponse (status : Nat) (statusText : String) (transport : String)
      (authMode : String) (timestamp : String)
  | missingCredentials (status : Nat) (message : String)
      (required : List String) (optionalFields : List String)
  | mcpDispatch
  | notFound (status : Nat) (endpoints : List String)
deriving DecidableEq, Repr

/-- The request handler installed by `startHttpTransport` in src/index.ts:
`/health` answers without auth; `/mcp` in gateway mode applies the header
credentials and rejects with 401 when the API key is missing, otherwise
dispatches to the transport; anything else is a 404 listing the endpoints. -/
def handleHttpRequest (isGatewayMode : Bool) (now : String)
    (req : HttpRequest) (env : Env) : HttpOutcome × Env :=
  if req.path = "/health" then
    (.healthResponse 200 "ok" "http" (if isGatewayMode then "gateway" else "env") now,
     env)
  else if req.path = "/mcp" then
    if isGatewayMode then
      match applyGatewayCredentials req env with
      | (false, env1) =>
        (.missingCredentials 401 "Gateway mode requires X-Syncro-API-Key header"
          ["X-Syncro-API-Key"] ["X-Syncro-Subdomain"], env1)
      | (true, env1) => (.mcpDispatch, env1)
    else
      (.mcpDispatch, env)
  else
    (.notFound 404 ["/mcp", "/health"], env)

/-! ### Well-formedness predicates and concrete fixtures -/

/-- Every handler the registry cache holds exposes the fixed tool list of its
domain module (the only handlers ever cached come from the imports). -/
def CacheWF (cache : Cache) : Prop :=
  ∀ d h, cache d = some h → h.getTools = domainToolsOf d

/-- The client-cache invariant maintained by src/utils/client.ts: a cached
client was built by `new` (its id precedes the counter) together with the
credential tuple that produced it. -/
def ClientStateWF (s : ClientState) : Prop :=
  ∀ cl, s.cachedClient = some cl → cl.id < s.nextId ∧ s.cachedCredentials.isSome = true

/-- A configured environment fixture. -/
def wEnv : Env := { SYNCRO_API_KEY := some "k", SYNCRO_SUBDOMAIN := none }

/-- An unconfigured environment fixture. -/
def wEnvNone : Env := { SYNCRO_API_KEY := none, SYNCRO_SUBDOMAIN := none }

/-- The empty registry cache (fresh process / after `clearDomainCache`). -/
def emptyCache : Cache := fun _ => none

/-- The initial client-cache module state (fresh process / after `clearClient`). -/
def cs0 : ClientState := { cachedClient := none, cachedCredentials := none, nextId := 0 }

/-- The initial server state: at root, nothing cached. -/
def st0 : ServerState :=
  { currentDomain := none, domainCache := emptyCache, clientState := cs0 }

/-- A benign handler-call behavior fixture. -/
def wCall : DomainName → String → Args → Env → ClientState →
    (Except String CallToolResult) × ClientState :=
  fun _ _ _ _ cs => (.ok { content := ["ok"] }, cs)

/-- A tickets API fixture whose `get` fails like the remote "Ticket not found"
error, as in the scenario of the spec. -/
def failApi : TicketsApi :=
  { list := fun _ _ => .ok "",
    get := fun _ _ => .error "Ticket not found",
    create := fun _ _ => .ok "",
    update := fun _ _ => .ok "",
    addComment := fun _ _ => .ok "" }

/-! ### Helper lemmas -/

theorem parse_toString (d : DomainName) : parseDomainName d.toString = some d := by
  cases d <;> rfl

theorem parseDomainName_eq_none (v : String) (h : isDomainName v = false) :
    parseDomainName v = none := by
  simp only [isDomainName, List.elem_eq_mem, List.mem_cons, List.not_mem_nil,
    or_false, decide_eq_false_iff_not, not_or] at h
  obtain ⟨h1, h2, h3, h4, h5⟩ := h
  simp [parseDomainName, h1, h2, h3, h4, h5]

theorem parseDomainName_isSome (v : String) (h : isDomainName v = true) :
    ∃ d, parseDomainName v = some d := by
  simp only [isDomainName, List.elem_eq_mem, List.mem_cons, List.not_mem_nil,
    or_false, decide_eq_true_eq] at h
  rcases h with h | h | h | h | h <;> subst h <;> exact ⟨_, rfl⟩

theorem jsTruthy_some (o : Option String) (k : String) (h : jsTruthy o = some k) :
    jsTruthy (some k) = some k := by
  match o with
  | none => exact absurd h (by simp [jsTruthy])
  | some s =>
    simp only [jsTruthy] at h ⊢
    by_cases hs : s = ""
    · rw [if_pos hs] at h
      exact absurd h (by simp)
    · rw [if_neg hs] at h
      have hk : s = k := Option.some.inj h
      subst hk
      rw [if_neg hs]

theorem emptyCache_wf : CacheWF emptyCache := fun _ _ h => Option.noConfusion h

theorem cs0_wf : ClientStateWF cs0 := fun _ h => Option.noConfusion h

theorem getDomainHandler_importOf (call : DomainName → String → Args → Env →
      ClientState → (Except String CallToolResult) × ClientState)
    (cache : Cache) (d : DomainName) :
    ∃ h c1, getDomainHandler (importOf call) cache d = .ok (h, c1) ∧
      c1 d = some h ∧
      (CacheWF cache → h.getTools = domainToolsOf d ∧ CacheWF c1) := by
  cases hc : cache d with
  | some cached =>
    refine ⟨cached, cache, ?_, hc, fun hwf => ⟨hwf d cached hc, hwf⟩⟩
    simp [getDomainHandler, hc]
  | none =>
    refine ⟨{ getTools := domainToolsOf d, handleCall := call d },
      fun d' => if d' = d then some { getTools := domainToolsOf d, handleCall := call d }
                else cache d', ?_, by simp, fun hwf => ⟨rfl, ?_⟩⟩
    · simp [getDomainHandler, hc, importOf]
    · intro d' h' hh'
      by_cases hd : d' = d
      · subst hd
        simp only [if_pos rfl] at hh'
        cases hh'
        rfl
      · simp only [if_neg hd] at hh'
        exact hwf d' h' hh'

theorem getClient_hit (env : Env) (s : ClientState) (c : SyncroCredentials)
    (hc : getCredentials env = some c) (cl : SyncroClient)
    (hcl : s.cachedClient = some cl) (hcr : s.cachedCredentials = some c) :
    getClient env s = .ok (cl, s) := by
  simp [getClient, hc, hcl, hcr]

theorem getClient_fresh_empty (env : Env) (s : ClientState) (c : SyncroCredentials)
    (hc : getCredentials env = some c) (hcl : s.cachedClient = none) :
    getClient env s =
      .ok ({ id := s.nextId, apiKey := c.apiKey, subdomain := c.subdomain },
        { cachedClient := some { id := s.nextId, apiKey := c.apiKey, subdomain := c.subdomain },
          cachedCredentials := some c, nextId := s.nextId + 1 }) := by
  simp [getClient, hc, hcl]

theorem getClient_fresh_invalidate (env : Env) (s : ClientState)
    (c c' : SyncroCredentials) (hc : getCredentials env = some c)
    (cl : SyncroClient) (hcl : s.cachedClient = some cl)
    (hcr : s.cachedCredentials = some c') (hne : c' ≠ c) :
    getClient env s =
      .ok ({ id := s.nextId, apiKey := c.apiKey, subdomain := c.subdomain },
        { cachedClient := some { id := s.nextId, apiKey := c.apiKey, subdomain := c.subdomain },
          cachedCredentials := some c, nextId := s.nextId + 1 }) := by
  have hfields : c.apiKey ≠ c'.apiKey ∨ c.subdomain ≠ c'.subdomain := by
    by_contra hcon
    push_neg at hcon
    refine hne ?_
    cases c
    cases c'
    simp only [SyncroCredentials.mk.injEq]
    exact ⟨hcon.1.symm, hcon.2.symm⟩
  simp only [getClient, hc, hcl, hcr]
  rw [if_pos hfields]

theorem getClient_post (env : Env) (s : ClientState) (c : SyncroCredentials)
    (hwf : ClientStateWF s) (hc : getCredentials env = some c)
    (cl : SyncroClient) (s1 : ClientState) (h : getClient env s = .ok (cl, s1)) :
    s1.cachedClient = some cl ∧ s1.cachedCredentials = some c ∧
    cl.id < s1.nextId ∧ ClientStateWF s1 := by
  cases hcl : s.cachedClient with
  | none =>
    rw [getClient_fresh_empty env s c hc hcl] at h
    cases h
    refine ⟨rfl, rfl, Nat.lt_succ_self _, ?_⟩
    intro cl' hcl'
    cases hcl'
    exact ⟨Nat.lt_succ_self _, rfl⟩
  | some cl0 =>
    obtain ⟨hid, hcrs⟩ := hwf cl0 hcl
    obtain ⟨c', hcr⟩ := Option.isSome_iff_exists.mp hcrs
    by_cases hcc : c' = c
    · subst hcc
      rw [getClient_hit env s c' hc cl0 hcl hcr] at h
      cases h
      exact ⟨hcl, hcr, hid, hwf⟩
    · rw [getClient_fresh_invalidate env s c c' hc cl0 hcl hcr hcc] at h
      cases h
      refine ⟨rfl, rfl, Nat.lt_succ_self _, ?_⟩
      intro cl' hcl'
      cases hcl'
      exact ⟨Nat.lt_succ_self _, rfl⟩

theorem handleCallToolAux_navigate (imp : DomainName → Except String DomainHandler)
    (env : Env) (st : ServerState) (d : DomainName) (c : SyncroCredentials)
    (hc : getCredentials env = some c) :
    handleCallToolAux imp env st "syncro_navigate" [("domain", Prim.str d.toString)] =
      (match getDomainHandler imp st.domainCache d with
       | .error e => (.error e, { st with currentDomain := some d })
       | .ok (handler, cache1) =>
         (.ok (textResult (navigateSuccessText d handler.getTools)),
          { st with currentDomain := some d, domainCache := cache1 })) := by
  cases hgd : getDomainHandler imp st.domainCache d with
  | error e =>
    simp [handleCallToolAux, List.lookup, parse_toString, hc, hgd]
  | ok pr =>
    obtain ⟨handler, cache1⟩ := pr
    simp [handleCallToolAux, List.lookup, parse_toString, hc, hgd]

/-! ### Claim theorems -/

/-- C1: for every domain `d` in the closed set, when a credential tuple is
resolvable, `navigate(d)` from any navigation state transitions the state to
`InDomain(d)` without error, and the subsequently listed visible tool set is
exactly the back tool, then the status tool, then the ordered tool list of `d`. -/
theorem navigate_sets_domain_and_tool_list
    (call : DomainName → String → Args → Env → ClientState →
      (Except String CallToolResult) × ClientState)
    (env : Env) (st : ServerState) (d : DomainName)
    (hcreds : ∃ c, getCredentials env = some c)
    (hwf : CacheWF st.domainCache) :
    (handleCallTool (importOf call) env st "syncro_navigate"
        [("domain", Prim.str d.toString)]).2.currentDomain = some d ∧
    (handleCallTool (importOf call) env st "syncro_navigate"
        [("domain", Prim.str d.toString)]).1.isError = false ∧
    ∃ st2,
      getToolsForState (importOf call)
        (handleCallTool (importOf call) env st "syncro_navigate"
          [("domain", Prim.str d.toString)]).2 =
      .ok ([backTool, statusTool] ++ domainToolsOf d, st2) := by
  obtain ⟨c, hc⟩ := hcreds
  obtain ⟨h, c1, hgd, hc1d, hwfp⟩ := getDomainHandler_importOf call st.domainCache d
  obtain ⟨htools, hwf1⟩ := hwfp hwf
  have hred := handleCallToolAux_navigate (importOf call) env st d c hc
  rw [hgd] at hred
  simp only [handleCallTool, hred]
  refine ⟨by trivial, by trivial, ?_⟩
  refine ⟨{ st with currentDomain := some d, domainCache := c1 }, ?_⟩
  simp [getToolsForState, getDomainHandler, hc1d, htools]

/-- C1 witness: navigating to tickets from the initial state with credentials
configured lands in the tickets domain and lists back, status, then the
tickets tools. -/
theorem navigate_sets_domain_and_tool_list_witness :
    (∃ c, getCredentials wEnv = some c) ∧ CacheWF st0.domainCache ∧
    ((handleCallTool (importOf wCall) wEnv st0 "syncro_navigate"
        [("domain", Prim.str DomainName.tickets.toString)]).2.currentDomain =
      some DomainName.tickets ∧
    (handleCallTool (importOf wCall) wEnv st0 "syncro_navigate"
        [("domain", Prim.str DomainName.tickets.toString)]).1.isError = false ∧
    ∃ st2,
      getToolsForState (importOf wCall)
        (handleCallTool (importOf wCall) wEnv st0 "syncro_navigate"
          [("domain", Prim.str DomainName.tickets.toString)]).2 =
      .ok ([backTool, statusTool] ++ domainToolsOf DomainName.tickets, st2)) :=
  ⟨⟨{ apiKey := "k", subdomain := none }, rfl⟩, emptyCache_wf,
    navigate_sets_domain_and_tool_list wCall wEnv st0 DomainName.tickets
      ⟨{ apiKey := "k", subdomain := none }, rfl⟩ emptyCache_wf⟩

/-- C2: two successive `getClient()` calls resolving equal credential tuples
return the identical cached handle instance; calls resolving tuples that
differ in either field return a new, distinct instance, after which the old
instance is never returned again, even for the old tuple. -/
theorem getClient_session_cache (env env1 : Env) (s : ClientState)
    (c c1 : SyncroCredentials) (hwf : ClientStateWF s)
    (hc : getCredentials env = some c) (hc1 : getCredentials env1 = some c1)
    (cl : SyncroClient) (s1 : ClientState)
    (hfirst : getClient env s = .ok (cl, s1)) :
    (c1 = c → getClient env1 s1 = .ok (cl, s1)) ∧
    (c1 ≠ c →
      ∃ cl2 s2, getClient env1 s1 = .ok (cl2, s2) ∧ cl2 ≠ cl ∧
        ∀ env2, getCredentials env2 = some c →
          ∀ cl3 s3, getClient env2 s2 = .ok (cl3, s3) → cl3 ≠ cl) := by
  obtain ⟨hcl1, hcr1, hid1, hwf1⟩ := getClient_post env s c hwf hc cl s1 hfirst
  constructor
  · intro hee
    subst hee
    exact getClient_hit env1 s1 c1 hc1 cl hcl1 hcr1
  · intro hne
    refine ⟨_, _, getClient_fresh_invalidate env1 s1 c1 c hc1 cl hcl1 hcr1
      (fun hh => hne hh.symm), ?_, ?_⟩
    · intro heq
      exact absurd (congrArg SyncroClient.id heq).symm (Nat.ne_of_lt hid1)
    · intro env2 hc2 cl3 s3 h3
      rw [getClient_fresh_invalidate env2 _ c c1 hc2
        { id := s1.nextId, apiKey := c1.apiKey, subdomain := c1.subdomain }
        rfl rfl hne] at h3
      cases h3
      intro heq
      have : cl.id < s1.nextId + 1 := Nat.lt_succ_of_lt hid1
      exact absurd (congrArg SyncroClient.id heq).symm (Nat.ne_of_lt this)

/-- C2 witness: from the fresh cache, resolving key `k` twice returns the
same instance; switching to key `k2` returns a distinct instance and the old
one is never handed out again. -/
theorem getClient_session_cache_witness :
    ClientStateWF cs0 ∧
    getCredentials wEnv = some { apiKey := "k", subdomain := none } ∧
    getCredentials { SYNCRO_API_KEY := some "k2", SYNCRO_SUBDOMAIN := none } =
      some { apiKey := "k2", subdomain := none } ∧
    getClient wEnv cs0 =
      .ok ({ id := 0, apiKey := "k", subdomain := none },
        { cachedClient := some { id := 0, apiKey := "k", subdomain := none },
          cachedCredentials := some { apiKey := "k", subdomain := none }, nextId := 1 }) ∧
    (({ apiKey := "k2", subdomain := none } : SyncroCredentials) =
        { apiKey := "k", subdomain := none } →
      getClient { SYNCRO_API_KEY := some "k2", SYNCRO_SUBDOMAIN := none }
        { cachedClient := some { id := 0, apiKey := "k", subdomain := none },
          cachedCredentials := some { apiKey := "k", subdomain := none }, nextId := 1 } =
      .ok ({ id := 0, apiKey := "k", subdomain := none },
        { cachedClient := some { id := 0, apiKey := "k", subdomain := none },
          cachedCredentials := some { apiKey := "k", subdomain := none }, nextId := 1 })) ∧
    (({ apiKey := "k2", subdomain := none } : SyncroCredentials) ≠
        { apiKey := "k", subdomain := none } →
      ∃ cl2 s2,
        getClient { SYNCRO_API_KEY := some "k2", SYNCRO_SUBDOMAIN := none }
          { cachedClient := some { id := 0, apiKey := "k", subdomain := none },
            cachedCredentials := some { apiKey := "k", subdomain := none }, nextId := 1 } =
          .ok (cl2, s2) ∧
        cl2 ≠ { id := 0, apiKey := "k", subdomain := none } ∧
        ∀ env2, getCredentials env2 = some { apiKey := "k", subdomain := none } →
          ∀ cl3 s3, getClient env2 s2 = .ok (cl3, s3) →
            cl3 ≠ { id := 0, apiKey := "k", subdomain := none }) :=
  ⟨cs0_wf, rfl, rfl, rfl,
    (getClient_session_cache wEnv { SYNCRO_API_KEY := some "k2", SYNCRO_SUBDOMAIN := none }
      cs0 { apiKey := "k", subdomain := none } { apiKey := "k2", subdomain := none }
      cs0_wf rfl rfl { id := 0, apiKey := "k", subdomain := none } _ rfl).1,
    (getClient_session_cache wEnv { SYNCRO_API_KEY := some "k2", SYNCRO_SUBDOMAIN := none }
      cs0 { apiKey := "k", subdomain := none } { apiKey := "k2", subdomain := none }
      cs0_wf rfl rfl { id := 0, apiKey := "k", subdomain := none } _ rfl).2⟩

/-- C5: `navigate` with an argument outside the closed domain set returns an
error result enumerating the valid domains in canonical order without mutating
the state; `navigate` with a valid domain while no credential tuple resolves
returns the configure-credentials error result without mutating the state. -/
theorem navigate_error_paths (imp : DomainName → Except String DomainHandler)
    (env : Env) (st : ServerState) (dv : String) (args : Args)
    (hlookup : args.lookup "domain" = some (Prim.str dv)) :
    (isDomainName dv = false →
      handleCallTool imp env st "syncro_navigate" args =
        (errorResult (invalidDomainText dv), st)) ∧
    (isDomainName dv = true → getCredentials env = none →
      handleCallTool imp env st "syncro_navigate" args =
        (errorResult noCredentialsText, st)) ∧
    availableDomainsJoined = "customers, tickets, assets, contacts, invoices" := by
  refine ⟨?_, ?_, by decide⟩
  · intro hbad
    simp [handleCallTool, handleCallToolAux, hlookup,
      parseDomainName_eq_none dv hbad, primDisplay]
  · intro hgood hnone
    obtain ⟨d, hd⟩ := parseDomainName_isSome dv hgood
    simp [handleCallTool, handleCallToolAux, hlookup, hd, hnone]

/-- C5 witness: `navigate("unknown")` errors listing the canonical domains and
leaves the state alone; `navigate("customers")` without credentials errors and
leaves the state alone. -/
theorem navigate_error_paths_witness :
    ([(("domain" : String), Prim.str "unknown")].lookup "domain" =
      some (Prim.str "unknown")) ∧
    (isDomainName "unknown" = false →
      handleCallTool (importOf wCall) wEnvNone st0 "syncro_navigate"
        [("domain", Prim.str "unknown")] =
        (errorResult (invalidDomainText "unknown"), st0)) ∧
    (isDomainName "unknown" = true → getCredentials wEnvNone = none →
      handleCallTool (importOf wCall) wEnvNone st0 "syncro_navigate"
        [("domain", Prim.str "unknown")] =
        (errorResult noCredentialsText, st0)) ∧
    availableDomainsJoined = "customers, tickets, assets, contacts, invoices" :=
  ⟨rfl, (navigate_error_paths (importOf wCall) wEnvNone st0 "unknown"
      [("domain", Prim.str "unknown")] rfl).1,
    (navigate_error_paths (importOf wCall) wEnvNone st0 "unknown"
      [("domain", Prim.str "unknown")] rfl).2.1,
    (navigate_error_paths (importOf wCall) wEnvNone st0 "unknown"
      [("domain", Prim.str "unknown")] rfl).2.2⟩

/-- C8: `back()` from any navigation state transitions to root without error,
reports the domain that was left (or "root" when already at root), and the
subsequently listed visible tool set is exactly navigate then status. -/
theorem back_returns_to_root (imp : DomainName → Except String DomainHandler)
    (env : Env) (st : ServerState) (args : Args) :
    handleCallTool imp env st "syncro_back" args =
      (textResult (backText st.currentDomain), { st with currentDomain := none }) ∧
    (textResult (backText st.currentDomain)).isError = false ∧
    backText st.currentDomain =
      "Navigated back from " ++
        (match st.currentDomain with
         | some d => d.toString
         | none => "root") ++
        " to the main menu.\n\nAvailable domains: " ++ availableDomainsJoined ++
        "\n\nUse syncro_navigate to select a domain." ∧
    getToolsForState imp { st with currentDomain := none } =
      .ok ([navigateTool, statusTool], { st with currentDomain := none }) := by
  refine ⟨?_, rfl, rfl, rfl⟩
  simp [handleCallTool, handleCallToolAux]

/-- C9: `navigate(d)` with valid domain and credentials assigns the navigation
state before the lazy handler load; when that load throws, the call returns an
error result while the state remains `InDomain(d)`. -/
theorem navigate_keeps_state_on_handler_load_failure
    (imp : DomainName → Except String DomainHandler) (env : Env)
    (st : ServerState) (d : DomainName) (e : String) (c : SyncroCredentials)
    (hc : getCredentials env = some c) (hcache : st.domainCache d = none)
    (himp : imp d = .error e) :
    handleCallTool imp env st "syncro_navigate" [("domain", Prim.str d.toString)] =
      ({ content := ["Error: " ++ e], isError := true },
       { st with currentDomain := some d }) := by
  have hred := handleCallToolAux_navigate imp env st d c hc
  have hgd : getDomainHandler imp st.domainCache d = .error e := by
    simp [getDomainHandler, hcache, himp]
  rw [hgd] at hred
  simp [handleCallTool, hred]

/-- C9 witness: with credentials set and a tickets import that fails, navigate
returns the propagated error while the state stays in the tickets domain. -/
theorem navigate_keeps_state_on_handler_load_failure_witness :
    getCredentials wEnv = some { apiKey := "k", subdomain := none } ∧
    st0.domainCache DomainName.tickets = none ∧
    ((fun _ => .error "Cannot find module") : DomainName → Except String DomainHandler)
        DomainName.tickets = .error "Cannot find module" ∧
    handleCallTool (fun _ => .error "Cannot find module") wEnv st0 "syncro_navigate"
        [("domain", Prim.str DomainName.tickets.toString)] =
      ({ content := ["Error: " ++ "Cannot find module"], isError := true },
       { st0 with currentDomain := some DomainName.tickets }) :=
  ⟨rfl, rfl, rfl,
    navigate_keeps_state_on_handler_load_failure (fun _ => .error "Cannot find module")
      wEnv st0 DomainName.tickets "Cannot find module"
      { apiKey := "k", subdomain := none } rfl rfl rfl⟩

/-- C4: in gateway auth mode a protocol-path request without the API-key
header gets the structured 401 naming the required and optional header fields
and is never dispatched to the protocol transport; the health path answers
with liveness, auth mode and timestamp with no credential requirement; any
other path gets the 404 listing the known paths. -/
theorem http_gateway_routing (req : HttpRequest) (env : Env) (now : String) :
    (req.path = "/mcp" → jsTruthy req.apiKeyHeader = none →
      handleHttpRequest true now req env =
        (.missingCredentials 401 "Gateway mode requires X-Syncro-API-Key header"
          ["X-Syncro-API-Key"] ["X-Syncro-Subdomain"], env) ∧
      (handleHttpRequest true now req env).1 ≠ .mcpDispatch) ∧
    (req.path = "/health" → ∀ gw : Bool,
      handleHttpRequest gw now req env =
        (.healthResponse 200 "ok" "http" (if gw then "gateway" else "env") now, env)) ∧
    (req.path ≠ "/mcp" → req.path ≠ "/health" → ∀ gw : Bool,
      handleHttpRequest gw now req env =
        (.notFound 404 ["/mcp", "/health"], env)) := by
  refine ⟨?_, ?_, ?_⟩
  · intro hpath hkey
    have hne : req.path ≠ "/health" := by
      rw [hpath]
      decide
    constructor
    · simp [handleHttpRequest, hpath, hne, applyGatewayCredentials, hkey]
    · simp [handleHttpRequest, hpath, hne, applyGatewayCredentials, hkey]
  · intro hpath gw
    simp [handleHttpRequest, hpath]
  · intro hmcp hhealth gw
    simp [handleHttpRequest, hmcp, hhealth]

/-- C4 witness: a headerless request to the protocol path is rejected with the
structured 401 and not dispatched; the health path and an unknown path behave
as stated. -/
theorem http_gateway_routing_witness :
    (("/mcp" : String) = "/mcp" →
      jsTruthy (none : Option String) = none →
      handleHttpRequest true "ts"
          { path := "/mcp", apiKeyHeader := none, subdomainHeader := none } wEnv =
        (.missingCredentials 401 "Gateway mode requires X-Syncro-API-Key header"
          ["X-Syncro-API-Key"] ["X-Syncro-Subdomain"], wEnv) ∧
      (handleHttpRequest true "ts"
          { path := "/mcp", apiKeyHeader := none, subdomainHeader := none } wEnv).1 ≠
        .mcpDispatch) ∧
    (("/mcp" : String) = "/health" → ∀ gw : Bool,
      handleHttpRequest gw "ts"
          { path := "/mcp", apiKeyHeader := none, subdomainHeader := none } wEnv =
        (.healthResponse 200 "ok" "http" (if gw then "gateway" else "env") "ts", wEnv)) ∧
    (("/mcp" : String) ≠ "/mcp" → ("/mcp" : String) ≠ "/health" → ∀ gw : Bool,
      handleHttpRequest gw "ts"
          { path := "/mcp", apiKeyHeader := none, subdomainHeader := none } wEnv =
        (.notFound 404 ["/mcp", "/health"], wEnv)) :=
  http_gateway_routing
    { path := "/mcp", apiKeyHeader := none, subdomainHeader := none } wEnv "ts"

/-- C6: a non-reserved invocation name outside the currently visible tool set
always yields an error result — regardless of the installed handler behaviors,
so no domain operation is invoked — with the root message instructing to
navigate first, or the in-domain message naming the selected domain and the
back operation; navigation state and client cache are untouched. -/
theorem unknown_tool_error
    (call : DomainName → String → Args → Env → ClientState →
      (Except String CallToolResult) × ClientState)
    (env : Env) (st : ServerState) (name : String) (args : Args)
    (h1 : name ≠ "syncro_navigate") (h2 : name ≠ "syncro_back")
    (h3 : name ≠ "syncro_status") (hwf : CacheWF st.domainCache) :
    (st.currentDomain = none →
      handleCallTool (importOf call) env st name args =
        (errorResult ("Unknown tool: " ++ name ++
          ". Use syncro_navigate to select a domain first."), st)) ∧
    (∀ d, st.currentDomain = some d →
      name ∉ (domainToolsOf d).map Tool.name →
      (handleCallTool (importOf call) env st name args).1 =
        errorResult ("Unknown tool: " ++ name ++ ". You are currently in the " ++
          d.toString ++ " domain. Use syncro_back to return to the main menu.") ∧
      (handleCallTool (importOf call) env st name args).2.currentDomain =
        st.currentDomain ∧
      (handleCallTool (importOf call) env st name args).2.clientState =
        st.clientState) := by
  constructor
  · intro hroot
    simp [handleCallTool, handleCallToolAux, h1, h2, h3, hroot, unknownToolText]
  · intro d hdom hmem
    obtain ⟨h, c1, hgd, hc1d, hwfp⟩ := getDomainHandler_importOf call st.domainCache d
    obtain ⟨htools, hwf1⟩ := hwfp hwf
    have hno : ¬∃ a ∈ h.getTools, a.name = name := by
      rw [htools]
      rintro ⟨a, ha, hna⟩
      exact hmem (List.mem_map.mpr ⟨a, ha, hna⟩)
    refine ⟨?_, ?_, ?_⟩ <;>
      simp [handleCallTool, handleCallToolAux, h1, h2, h3, hdom, hgd, hno,
        unknownToolText]

/-- C6 witness: in the tickets domain, invoking `syncro_customers_list` (a
tool of a different, non-selected domain) yields the in-domain unknown-tool
error and changes neither the navigation state nor the client cache. -/
theorem unknown_tool_error_witness :
    (("syncro_customers_list" : String) ≠ "syncro_navigate") ∧
    (("syncro_customers_list" : String) ≠ "syncro_back") ∧
    (("syncro_customers_list" : String) ≠ "syncro_status") ∧
    CacheWF st0.domainCache ∧
    ({ st0 with currentDomain := some DomainName.tickets } :
        ServerState).currentDomain = some DomainName.tickets ∧
    "syncro_customers_list" ∉ (domainToolsOf DomainName.tickets).map Tool.name ∧
    ((handleCallTool (importOf wCall) wEnv
        { st0 with currentDomain := some DomainName.tickets }
        "syncro_customers_list" []).1 =
      errorResult ("Unknown tool: " ++ "syncro_customers_list" ++
        ". You are currently in the " ++ DomainName.tickets.toString ++
        " domain. Use syncro_back to return to the main menu.") ∧
    (handleCallTool (importOf wCall) wEnv
        { st0 with currentDomain := some DomainName.tickets }
        "syncro_customers_list" []).2.currentDomain =
      ({ st0 with currentDomain := some DomainName.tickets } :
        ServerState).currentDomain ∧
    (handleCallTool (importOf wCall) wEnv
        { st0 with currentDomain := some DomainName.tickets }
        "syncro_customers_list" []).2.clientState =
      ({ st0 with currentDomain := some DomainName.tickets } :
        ServerState).clientState) :=
  ⟨by decide, by decide, by decide, emptyCache_wf, rfl, by decide,
    (unknown_tool_error wCall wEnv { st0 with currentDomain := some DomainName.tickets }
      "syncro_customers_list" [] (by decide) (by decide) (by decide)
      emptyCache_wf).2 DomainName.tickets rfl (by decide)⟩

/-- C7: any failure a domain handler throws while dispatching a visible tool
is caught at the dispatch boundary and converted into a result with the error
flag set whose text carries the underlying message; it never escapes the
tool-call handler. -/
theorem handler_failure_becomes_error_result
    (call : DomainName → String → Args → Env → ClientState →
      (Except String CallToolResult) × ClientState)
    (env : Env) (st : ServerState) (d : DomainName) (name : String)
    (args : Args) (e : String)
    (h1 : name ≠ "syncro_navigate") (h2 : name ≠ "syncro_back")
    (h3 : name ≠ "syncro_status") (hdom : st.currentDomain = some d)
    (hcache : st.domainCache d = none)
    (hmem : name ∈ (domainToolsOf d).map Tool.name)
    (hthrow : (call d name args env st.clientState).1 = .error e) :
    (handleCallTool (importOf call) env st name args).1 =
      { content := ["Error: " ++ e], isError := true } := by
  have hgd : getDomainHandler (importOf call) st.domainCache d =
      .ok ({ getTools := domainToolsOf d, handleCall := call d },
        fun d' => if d' = d
          then some { getTools := domainToolsOf d, handleCall := call d }
          else st.domainCache d') := by
    simp [getDomainHandler, hcache, importOf]
  have hyes : ∃ a ∈ domainToolsOf d, a.name = name := by
    obtain ⟨a, ha, hna⟩ := List.mem_map.mp hmem
    exact ⟨a, ha, hna⟩
  simp [handleCallTool, handleCallToolAux, h1, h2, h3, hdom, hgd, hyes, hthrow]

/-- C7 witness: the spec scenario — in the tickets domain, `syncro_tickets_get`
against a remote that throws "Ticket not found" yields an error-flagged result
whose text carries that message. -/
theorem handler_failure_becomes_error_result_witness :
    (("syncro_tickets_get" : String) ≠ "syncro_navigate") ∧
    (("syncro_tickets_get" : String) ≠ "syncro_back") ∧
    (("syncro_tickets_get" : String) ≠ "syncro_status") ∧
    ({ st0 with currentDomain := some DomainName.tickets } :
        ServerState).currentDomain = some DomainName.tickets ∧
    ({ st0 with currentDomain := some DomainName.tickets } :
        ServerState).domainCache DomainName.tickets = none ∧
    "syncro_tickets_get" ∈ (domainToolsOf DomainName.tickets).map Tool.name ∧
    (ticketsHandleCall failApi "syncro_tickets_get" [("ticket_id", Prim.num 789)]
        wEnv ({ st0 with currentDomain := some DomainName.tickets } :
          ServerState).clientState).1 = .error "Ticket not found" ∧
    (handleCallTool (importOf (fun _ => ticketsHandleCall failApi)) wEnv
        { st0 with currentDomain := some DomainName.tickets }
        "syncro_tickets_get" [("ticket_id", Prim.num 789)]).1 =
      { content := ["Error: " ++ "Ticket not found"], isError := true } :=
  ⟨by decide, by decide, by decide, rfl, rfl, by decide, rfl,
    handler_failure_becomes_error_result (fun _ => ticketsHandleCall failApi)
      wEnv { st0 with currentDomain := some DomainName.tickets }
      DomainName.tickets "syncro_tickets_get" [("ticket_id", Prim.num 789)]
      "Ticket not found" (by decide) (by decide) (by decide) rfl rfl
      (by decide) rfl⟩

/-- C3 counterexample: with process-wide credentials (proc-key, proc-sub) in
effect, one gateway request carrying (request-key, request-sub) completes, and
a credential resolution performed afterwards observes the values from the request,
not the prior process-wide ones — contradicting the claim that the
side-channel values take effect only for the duration of the request. -/
theorem gateway_credentials_not_request_scoped :
    getCredentials (handleHttpRequest true "ts"
        { path := "/mcp", apiKeyHeader := some "request-key",
          subdomainHeader := some "request-sub" }
        { SYNCRO_API_KEY := some "proc-key",
          SYNCRO_SUBDOMAIN := some "proc-sub" }).2 ≠
      getCredentials
        { SYNCRO_API_KEY := some "proc-key",
          SYNCRO_SUBDOMAIN := some "proc-sub" } := by
  decide

/-- C3 amended: gateway side-channel credentials are written into the
process-wide configuration rather than scoped to the request — after the
request, a resolution observes the API key from the request, and the tenant
qualifier from the request when it supplied one (the prior one otherwise). -/
theorem gateway_credentials_overwrite_process_env (env : Env)
    (req : HttpRequest) (now k : String) (hpath : req.path = "/mcp")
    (hk : jsTruthy req.apiKeyHeader = some k) :
    (handleHttpRequest true now req env).2.SYNCRO_API_KEY = some k ∧
    (handleHttpRequest true now req env).2.SYNCRO_SUBDOMAIN =
      (match jsTruthy req.subdomainHeader with
       | some sub => some sub
       | none => env.SYNCRO_SUBDOMAIN) ∧
    getCredentials (handleHttpRequest true now req env).2 =
      some { apiKey := k,
             subdomain :=
               (match jsTruthy req.subdomainHeader with
                | some sub => some sub
                | none => env.SYNCRO_SUBDOMAIN) } := by
  have hne : req.path ≠ "/health" := by
    rw [hpath]
    decide
  have hkk := jsTruthy_some req.apiKeyHeader k hk
  cases hsub : jsTruthy req.subdomainHeader with
  | none =>
    refine ⟨?_, ?_, ?_⟩ <;>
      simp [handleHttpRequest, hpath, hne, applyGatewayCredentials, hk, hsub,
        getCredentials, hkk]
  | some sub =>
    refine ⟨?_, ?_, ?_⟩ <;>
      simp [handleHttpRequest, hpath, hne, applyGatewayCredentials, hk, hsub,
        getCredentials, hkk]

/-- C3 amended witness: after a gateway request carrying (request-key,
request-sub) over process values (proc-key, proc-sub), resolution yields the
the tuple from the request. -/
theorem gateway_credentials_overwrite_process_env_witness :
    (({ path := "/mcp", apiKeyHeader := some "request-key",
        subdomainHeader := some "request-sub" } : HttpRequest).path = "/mcp") ∧
    jsTruthy (some "request-key") = some "request-key" ∧
    getCredentials (handleHttpRequest true "ts"
        { path := "/mcp", apiKeyHeader := some "request-key",
          subdomainHeader := some "request-sub" }
        { SYNCRO_API_KEY := some "proc-key",
          SYNCRO_SUBDOMAIN := some "proc-sub" }).2 =
      some { apiKey := "request-key", subdomain := some "request-sub" } :=
  ⟨rfl, rfl,
    (gateway_credentials_overwrite_process_env
      { SYNCRO_API_KEY := some "proc-key", SYNCRO_SUBDOMAIN := some "proc-sub" }
      { path := "/mcp", apiKeyHeader := some "request-key",
        subdomainHeader := some "request-sub" }
      "ts" "request-key" rfl rfl).2.2⟩

/-- C10: a gateway request carrying only the API-key header leaves the
previously stored tenant qualifier in effect — after a first request with both
headers and a second with only the key, resolution pairs the second key with
the tenant qualifier stored by the first request. -/
theorem gateway_subdomain_persists_across_requests (env : Env)
    (k1 s1 k2 now1 now2 : String)
    (hk1 : k1 ≠ "") (hs1 : s1 ≠ "") (hk2 : k2 ≠ "") :
    getCredentials (handleHttpRequest true now2
        { path := "/mcp", apiKeyHeader := some k2, subdomainHeader := none }
        (handleHttpRequest true now1
          { path := "/mcp", apiKeyHeader := some k1, subdomainHeader := some s1 }
          env).2).2 =
      some { apiKey := k2, subdomain := some s1 } := by
  simp [handleHttpRequest, applyGatewayCredentials, jsTruthy, hk1, hs1, hk2,
    getCredentials]

/-- C10 witness: first request (k1, s1), second request (k2, no subdomain):
the resolved tuple is (k2, s1). -/
theorem gateway_subdomain_persists_across_requests_witness :
    ("k1" : String) ≠ "" ∧ ("s1" : String) ≠ "" ∧ ("k2" : String) ≠ "" ∧
    getCredentials (handleHttpRequest true "t2"
        { path := "/mcp", apiKeyHeader := some "k2", subdomainHeader := none }
        (handleHttpRequest true "t1"
          { path := "/mcp", apiKeyHeader := some "k1", subdomainHeader := some "s1" }
          wEnvNone).2).2 =
      some { apiKey := "k2", subdomain := some "s1" } :=
  ⟨by decide, by decide, by decide,
    gateway_subdomain_persists_across_requests wEnvNone "k1" "s1" "k2" "t1" "t2"
      (by decide) (by decide) (by decide)⟩

end SyncroMcp
